import Mathlib

/-!
Shallow embedding of the fastapi_attendance_mvp frontend action handlers.

Sources embedded:
- src/frontend/src/resources/lessons/LessonEdit.js
  (handleFileUpload, handleEnroll, CustomFileDeleteButton.handleDelete,
   the unenroll onClick, the required validator)
- src/frontend/src/resources/lessons/student/StudentLessonView.js
  (handleMarkAttendance, FaceRegistrationPage.handleRegisterFace)
- src/frontend/src/resources/lessons/LessonCreate.js (required validator)
- src/unnamed/part_000 (App role router)

Each async handler is embedded as a pure function from an environment
(its component state, the stored token, and the outcome the single fetch
would have) to an outcome record collecting the requests issued, the
notifications raised, the resulting component state, whether refresh()
was called, and whether the file-picker widget was cleared.  The body of
each try-block after the fetch resolves is factored into a named
"respond" function (what the code does with the response) and an "after"
function (how the code's success path and catch-block turn the result
into the outcome record), mirroring the source's response handling.
-/

/-- Notification levels of react-admin notify / MUI Alert severities.
`notify(msg)` with no options uses the default level, modelled as `info`. -/
inductive NotifLevel
  | info
  | success
  | warning
  | error
deriving DecidableEq

/-- One call to react-admin notify (message text and level). -/
structure Notification where
  message : String
  level : NotifLevel
deriving DecidableEq

/-- A JSON value, as far as the handlers inspect one
(the similarity field may be any JSON value; numbers are modelled as rationals). -/
inductive JsonVal
  | jNum (q : Rat)
  | jStr (s : String)
  | jBool (b : Bool)
  | jNull
deriving DecidableEq

/-- The response-body object fields the handlers read.  The model covers
bodies whose detail and message fields, when present, are strings (the
error contract of the backend); similarity may be any JSON value. -/
structure JsonObj where
  detail : Option String
  message : Option String
  similarity : Option JsonVal
deriving DecidableEq

/-- A fetch Response: ok is (status in 2xx), rawBody is response.text(),
jsonBody is some o when the raw body parses as a JSON object (response.json()
succeeds) and none when parsing throws. -/
structure HttpResponse where
  ok : Bool
  status : Nat
  rawBody : String
  jsonBody : Option JsonObj
deriving DecidableEq

/-- Outcome of the single fetch a handler may issue: either a response
arrived or fetch itself rejected with a network error message. -/
inductive FetchOutcome
  | response (r : HttpResponse)
  | netError (msg : String)
deriving DecidableEq

/-- Kind of the request body the handlers send. -/
inductive ReqBody
  | multipartFile (name : String)
  | enrollJson (studentIdRaw : String) (lessonId : Nat)
  | unenrollJson (userId : Nat) (lessonId : Nat)
  | empty
deriving DecidableEq

/-- One network request as the handlers build it. -/
structure Request where
  method : String
  url : String
  auth : String
  body : ReqBody
deriving DecidableEq

/-- Default API base: process.env.REACT_APP_API_URL is unset, so the code
falls back to this literal in every handler. -/
def apiBase : String := "http://localhost:8000"

/-- JS template `Bearer ${token}` where token is localStorage.getItem:
a missing key interpolates as the string "null". -/
def bearer (t : Option String) : String := "Bearer " ++ t.getD "null"

/-- JS `m || d` on strings: the empty string is falsy. -/
def errOr (m d : String) : String := if m = "" then d else m

/-- `(await response.json().catch(() => ({detail: dflt}))).detail || dflt`:
on parse failure the catch substitutes an object whose detail is dflt;
a missing or empty detail also falls back to dflt. -/
def jsonDetailOr (r : HttpResponse) (dflt : String) : String :=
  match r.jsonBody with
  | some o => errOr (o.detail.getD "") dflt
  | none => dflt

/-- `await fetch(...)` followed by the given use of the response: a
network error rejects with its message, a response is handed on. -/
def fetchThen (fo : FetchOutcome) (onResp : HttpResponse → Except String A) :
    Except String A :=
  match fo with
  | .netError m => .error m
  | .response r => onResp r

/- ---------------------------------------------------------------------
The required validator (LessonCreate.js / LessonEdit.js):
  const required = (message = 'Required') => value => value ? undefined : message;
JS values are modelled by JsVal; NaN is not modelled (no NaN reaches a
form field as a value here). --------------------------------------------------------------------- -/

/-- A JS value as seen by the form validator. -/
inductive JsVal
  | vUndefined
  | vNull
  | vBool (b : Bool)
  | vNum (q : Rat)
  | vStr (s : String)
  | vObj
deriving DecidableEq

/-- JS truthiness of a JsVal. -/
def jsTruthy : JsVal → Bool
  | .vUndefined => false
  | .vNull => false
  | .vBool b => b
  | .vNum q => decide (q ≠ 0)
  | .vStr s => decide (s ≠ "")
  | .vObj => true

/-- The required validator: `value => value ? undefined : message`,
with none standing for undefined (the field passes). -/
def required (message : String) (value : JsVal) : Option String :=
  if jsTruthy value then none else some message

/-- The default message of the validator (`message = 'Required'`). -/
def requiredDefaultMessage : String := "Required"

/-- The falsy JS values, enumerated. -/
def jsFalsy (v : JsVal) : Prop :=
  v = .vUndefined ∨ v = .vNull ∨ v = .vBool false ∨ v = .vNum 0 ∨ v = .vStr ""

/- ---------------------------------------------------------------------
Role router (src/unnamed/part_000, App):
permissions is the value resolved once by authProvider.getPermissions
(none models resolution failure: the catch sets permissions to null).
--------------------------------------------------------------------- -/

/-- Resources mounted inside the permissions === 'teacher' block. -/
def teacherResources : List String :=
  ["users", "lessons", "attendance", "lessonfiles", "studentlessonenrollments", "files"]

/-- Route paths mounted inside the permissions === 'student' block. -/
def studentRoutes : List String :=
  ["/student/lessons", "/student/lessons/:lessonId", "/", "/student/register-face"]

/-- Route paths of the fallback CustomRoutes block. -/
def fallbackRoutes : List String := ["/"]

/-- Resources the App mounts for a resolved permissions value. -/
def appResources (perms : Option String) : List String :=
  if perms = some "teacher" then teacherResources else []

/-- Custom routes the App mounts for a resolved permissions value.
The fallback condition is the literal
`!permissions || (permissions !== 'teacher' && permissions !== 'student')`
(a null or empty permissions string is falsy). -/
def appRoutes (perms : Option String) : List String :=
  (if perms = some "student" then studentRoutes else []) ++
  (if perms.getD "" = "" ∨ (perms ≠ some "teacher" ∧ perms ≠ some "student")
   then fallbackRoutes else [])

/- ---------------------------------------------------------------------
handleFileUpload (LessonEdit.js lines 39-69, LessonFileUpload component).
--------------------------------------------------------------------- -/

/-- Inputs of one handleFileUpload invocation: component state (file,
fileName), the record context, the stored token, the outcome the fetch
would have, and whether the file-picker DOM element exists. -/
structure UploadEnv where
  file : Option String
  fileName : String
  record : Option Nat
  token : Option String
  fetch : FetchOutcome
  widgetPresent : Bool

/-- Observable outcome of one handleFileUpload invocation. -/
structure UploadOut where
  requests : List Request
  notifs : List Notification
  fileAfter : Option String
  fileNameAfter : String
  refreshed : Bool
  widgetCleared : Bool
deriving DecidableEq

/-- Outcome record with no request, no notification and unchanged state. -/
def uploadNoop (env : UploadEnv) : UploadOut :=
  { requests := [], notifs := [], fileAfter := env.file,
    fileNameAfter := env.fileName, refreshed := false, widgetCleared := false }

/-- The missing-token warning shared by four handlers. -/
def authWarnMsg : String := "Authentication token not found. Please log in."

/-- What handleFileUpload does with the response: a non-ok response
throws `errorData.detail || 'File upload failed'` after the parse-failure
catch substituted that same default. -/
def uploadRespond (r : HttpResponse) : Except String Unit :=
  if r.ok then .ok () else .error (jsonDetailOr r "File upload failed")

/-- Success path and catch-block of handleFileUpload: success notifies,
refreshes and clears the file, the name and (when present) the picker
widget; the catch notifies `Error: ...` at warning level and leaves the
state alone. -/
def uploadAfter (env : UploadEnv) (req : Request) (res : Except String Unit) :
    UploadOut :=
  match res with
  | .ok _ =>
    { requests := [req], notifs := [⟨"File uploaded successfully", .info⟩],
      fileAfter := none, fileNameAfter := "", refreshed := true,
      widgetCleared := env.widgetPresent }
  | .error m =>
    { requests := [req],
      notifs := [⟨"Error: " ++ errOr m "File upload failed", .warning⟩],
      fileAfter := env.file, fileNameAfter := env.fileName,
      refreshed := false, widgetCleared := false }

/-- LessonEdit.js lines 39-69.  `if (!file || !record) return;` (a silent
return: no request and no notification), then the token check, then one
POST of the multipart file. -/
def handleFileUpload (env : UploadEnv) : UploadOut :=
  match env.file, env.record with
  | none, _ => uploadNoop env
  | some _, none => uploadNoop env
  | some f, some rid =>
    match env.token with
    | none =>
      { uploadNoop env with notifs := [⟨authWarnMsg, .warning⟩] }
    | some tok =>
      let req : Request :=
        ⟨"POST", apiBase ++ "/api/lessons/" ++ toString rid ++ "/files",
          "Bearer " ++ tok, .multipartFile f⟩
      uploadAfter env req (fetchThen env.fetch uploadRespond)

/- ---------------------------------------------------------------------
handleEnroll (LessonEdit.js lines 98-121, EnrollStudentForm component).
--------------------------------------------------------------------- -/

/-- Inputs of one handleEnroll invocation (studentId is the state string,
empty meaning nothing selected). -/
structure EnrollEnv where
  studentId : String
  record : Option Nat
  token : Option String
  fetch : FetchOutcome

/-- Observable outcome of one handleEnroll invocation. -/
structure EnrollOut where
  requests : List Request
  notifs : List Notification
  studentIdAfter : String
  refreshed : Bool
deriving DecidableEq

/-- Outcome record with no request, no notification and unchanged state. -/
def enrollNoop (env : EnrollEnv) : EnrollOut :=
  { requests := [], notifs := [], studentIdAfter := env.studentId, refreshed := false }

/-- What handleEnroll does with the response (non-ok throws
`errorData.detail || 'Enrollment failed'`). -/
def enrollRespond (r : HttpResponse) : Except String Unit :=
  if r.ok then .ok () else .error (jsonDetailOr r "Enrollment failed")

/-- Success path and catch-block of handleEnroll. -/
def enrollAfter (env : EnrollEnv) (req : Request) (res : Except String Unit) :
    EnrollOut :=
  match res with
  | .ok _ =>
    { requests := [req], notifs := [⟨"Student enrolled successfully", .info⟩],
      studentIdAfter := "", refreshed := true }
  | .error m =>
    { requests := [req],
      notifs := [⟨"Error: " ++ errOr m "Enrollment failed", .warning⟩],
      studentIdAfter := env.studentId, refreshed := false }

/-- LessonEdit.js lines 98-121.  `if (!studentId || !record) return;` (a
silent return), then the token check, then one POST whose JSON body
carries `user_id: parseInt(studentId)` (the raw state string is recorded
in the request model) and the lesson id. -/
def handleEnroll (env : EnrollEnv) : EnrollOut :=
  if env.studentId = "" then enrollNoop env
  else
    match env.record with
    | none => enrollNoop env
    | some rid =>
      match env.token with
      | none => { enrollNoop env with notifs := [⟨authWarnMsg, .warning⟩] }
      | some tok =>
        let req : Request :=
          ⟨"POST", apiBase ++ "/api/lessons/" ++ toString rid ++ "/enroll",
            "Bearer " ++ tok, .enrollJson env.studentId rid⟩
        enrollAfter env req (fetchThen env.fetch enrollRespond)

/- ---------------------------------------------------------------------
handleDelete (LessonEdit.js lines 178-200, CustomFileDeleteButton).
--------------------------------------------------------------------- -/

/-- Inputs of one handleDelete invocation: the answer the user gives to
window.confirm, the file record id, the token and the fetch outcome. -/
structure DeleteEnv where
  confirmed : Bool
  fileId : Nat
  token : Option String
  fetch : FetchOutcome

/-- Observable outcome of one handleDelete invocation; prompted records
whether window.confirm was reached (for handleDelete it always is). -/
structure DeleteOut where
  requests : List Request
  notifs : List Notification
  refreshed : Bool
  prompted : Bool
deriving DecidableEq

/-- What handleDelete does with the response: a non-ok response reads
response.text() and throws a message embedding the status and the raw
body text (no JSON parse and no detail extraction here). -/
def deleteRespond (r : HttpResponse) : Except String Unit :=
  if r.ok then .ok ()
  else .error ("Failed to delete file. Status: " ++ toString r.status
    ++ ", Message: " ++ r.rawBody)

/-- Success path and catch-block of handleDelete (the success
notification is explicitly info-level). -/
def deleteAfter (req : Request) (res : Except String Unit) : DeleteOut :=
  match res with
  | .ok _ =>
    { requests := [req], notifs := [⟨"File deleted successfully", .info⟩],
      refreshed := true, prompted := true }
  | .error m =>
    { requests := [req],
      notifs := [⟨"Error: " ++ errOr m "Deletion failed", .warning⟩],
      refreshed := false, prompted := true }

/-- LessonEdit.js lines 178-200.  The whole body sits under
`if (window.confirm(...))`: declining means no request, no notification
and no state change. -/
def handleDelete (env : DeleteEnv) : DeleteOut :=
  if env.confirmed = false then
    { requests := [], notifs := [], refreshed := false, prompted := true }
  else
    match env.token with
    | none =>
      { requests := [], notifs := [⟨authWarnMsg, .warning⟩],
        refreshed := false, prompted := true }
    | some tok =>
      let req : Request :=
        ⟨"DELETE", apiBase ++ "/api/files/" ++ toString env.fileId,
          "Bearer " ++ tok, .empty⟩
      deleteAfter req (fetchThen env.fetch deleteRespond)

/- ---------------------------------------------------------------------
Unenroll onClick (LessonEdit.js lines 226-253, enrollment FunctionField).
--------------------------------------------------------------------- -/

/-- Inputs of one unenroll click: the lesson context (none when missing),
the enrollment user id, the confirm answer, token, fetch outcome. -/
structure UnenrollEnv where
  currentLesson : Option Nat
  enrollmentUserId : Nat
  confirmed : Bool
  token : Option String
  fetch : FetchOutcome

/-- Observable outcome of one unenroll click; prompted records whether
window.confirm was reached (it is not when the lesson context check
fails first). -/
structure UnenrollOut where
  requests : List Request
  notifs : List Notification
  refreshed : Bool
  prompted : Bool
deriving DecidableEq

/-- What the unenroll click does with the response (non-ok throws
`errorData.detail || 'Unenrollment failed'`). -/
def unenrollRespond (r : HttpResponse) : Except String Unit :=
  if r.ok then .ok () else .error (jsonDetailOr r "Unenrollment failed")

/-- Success path and catch-block of the unenroll click. -/
def unenrollAfter (req : Request) (res : Except String Unit) : UnenrollOut :=
  match res with
  | .ok _ =>
    { requests := [req],
      notifs := [⟨"Student unenrolled successfully", .info⟩],
      refreshed := true, prompted := true }
  | .error m =>
    { requests := [req],
      notifs := [⟨"Error: " ++ errOr m "Unenrollment failed", .warning⟩],
      refreshed := false, prompted := true }

/-- LessonEdit.js lines 226-253.  `if (!currentLesson || !currentLesson.id)`
warns about the missing lesson context before any prompt (an id of 0 is
falsy too); then the body sits under `if (window.confirm(...))`. -/
def unenrollOnClick (env : UnenrollEnv) : UnenrollOut :=
  match env.currentLesson with
  | none =>
    { requests := [], notifs := [⟨"Lesson context not found.", .warning⟩],
      refreshed := false, prompted := false }
  | some lid =>
    if lid = 0 then
      { requests := [], notifs := [⟨"Lesson context not found.", .warning⟩],
        refreshed := false, prompted := false }
    else if env.confirmed = false then
      { requests := [], notifs := [], refreshed := false, prompted := true }
    else
      match env.token with
      | none =>
        { requests := [], notifs := [⟨authWarnMsg, .warning⟩],
          refreshed := false, prompted := true }
      | some tok =>
        let req : Request :=
          ⟨"DELETE", apiBase ++ "/api/lessons/" ++ toString lid ++ "/unenroll",
            "Bearer " ++ tok, .unenrollJson env.enrollmentUserId lid⟩
        unenrollAfter req (fetchThen env.fetch unenrollRespond)

/- ---------------------------------------------------------------------
handleMarkAttendance (StudentLessonView.js lines 46-92).
--------------------------------------------------------------------- -/

/-- Left-pad the decimal digits of n to width 4 with zeros. -/
def pad4 (n : Nat) : String :=
  let s := toString n
  String.mk (List.replicate (4 - s.length) '0') ++ s

/-- JS Number.prototype.toFixed(4) on a rational value: round q * 10000
to the nearest integer (floor of q * 10000 + 1/2, computed directly on
the numerator and denominator with floor division) and render the result
with exactly four digits after the decimal point. -/
def toFixed4 (q : Rat) : String :=
  let m := Int.fdiv (2 * q.num * 10000 + (q.den : Int)) (2 * (q.den : Int))
  let sign := if m < 0 then "-" else ""
  sign ++ toString (m.natAbs / 10000) ++ "." ++ pad4 (m.natAbs % 10000)

/-- Message of the SyntaxError thrown when response.json() fails to parse
(stands for the engine-produced parse error text). -/
def jsonParseErrorMsg : String := "Unexpected end of JSON input"

/-- Message of the TypeError thrown by `responseData.similarity.toFixed(4)`
when similarity is absent (undefined has no properties). -/
def toFixedUndefinedMsg : String :=
  "Cannot read properties of undefined (reading toFixed)"

/-- Message of the TypeError thrown by `responseData.similarity.toFixed(4)`
when similarity is present but not a number. -/
def toFixedNotFunctionMsg : String :=
  "responseData.similarity.toFixed is not a function"

/-- `HTTP error! Status: ${response.status}` (handleMarkAttendance). -/
def httpErrMsg (status : Nat) : String := "HTTP error! Status: " ++ toString status

/-- `HTTP error! status: ${response.status}` (handleRegisterFace spells
status in lower case). -/
def httpErrMsgLower (status : Nat) : String :=
  "HTTP error! status: " ++ toString status

/-- What handleMarkAttendance does with the response:
`const responseData = await response.json()` throws on an unparseable
body; a non-ok status throws `responseData.detail || HTTP error...`; then
`responseData.similarity.toFixed(4)` throws a TypeError unless similarity
is a number.  Returns the similarity number on the success path. -/
def attendRespond (r : HttpResponse) : Except String Rat :=
  match r.jsonBody with
  | none => .error jsonParseErrorMsg
  | some o =>
    if r.ok = false then .error (errOr (o.detail.getD "") (httpErrMsg r.status))
    else
      match o.similarity with
      | none => .error toFixedUndefinedMsg
      | some (.jNum q) => .ok q
      | some (.jStr _) => .error toFixedNotFunctionMsg
      | some (.jBool _) => .error toFixedNotFunctionMsg
      | some .jNull => .error toFixedNotFunctionMsg

/-- Inputs of one handleMarkAttendance invocation: the route lessonId,
component state (selectedFile), the stored token, the fetch outcome, and
whether the file-picker DOM element exists. -/
structure AttendEnv where
  lessonId : String
  selectedFile : Option String
  token : Option String
  fetch : FetchOutcome
  widgetPresent : Bool

/-- Observable outcome of one handleMarkAttendance invocation.
loadingAfter is the final value of isAttendanceLoading given it was false
at invocation (the button is disabled while it is true); serverMessage
and serverMessageType are the final Alert state; StudentLessonView has no
refresh collaborator, recorded by refreshed. -/
structure AttendOut where
  requests : List Request
  notifs : List Notification
  selectedFileAfter : Option String
  loadingAfter : Bool
  serverMessage : String
  serverMessageType : NotifLevel
  refreshed : Bool
  widgetCleared : Bool
deriving DecidableEq

/-- Success path and catch-block of handleMarkAttendance: success builds
the similarity message, notifies it, clears the file and the picker
widget; the catch notifies `Attendance Error: ...` at error level and
leaves selectedFile unchanged; the finally clears the loading flag in
both cases.  No refresh collaborator exists in this component. -/
def attendAfter (f : String) (wp : Bool) (req : Request)
    (res : Except String Rat) : AttendOut :=
  match res with
  | .ok q =>
    { requests := [req],
      notifs := [⟨"Attendance confirmed! Similarity: " ++ toFixed4 q, .success⟩],
      selectedFileAfter := none, loadingAfter := false,
      serverMessage := "Attendance confirmed! Similarity: " ++ toFixed4 q,
      serverMessageType := .success, refreshed := false, widgetCleared := wp }
  | .error m =>
    { requests := [req],
      notifs := [⟨"Attendance Error: " ++ errOr m "An unknown error occurred.", .error⟩],
      selectedFileAfter := some f, loadingAfter := false,
      serverMessage := errOr m "An unknown error occurred.",
      serverMessageType := .error, refreshed := false, widgetCleared := false }

/-- StudentLessonView.js lines 46-92.  A missing file warns and returns;
otherwise the token is read but never checked: a missing token is
interpolated as "Bearer null" and the request is sent anyway. -/
def handleMarkAttendance (env : AttendEnv) : AttendOut :=
  match env.selectedFile with
  | none =>
    { requests := [],
      notifs := [⟨"Please select a file to simulate camera capture.", .warning⟩],
      selectedFileAfter := none, loadingAfter := false,
      serverMessage := "Please select an image file to mark attendance.",
      serverMessageType := .warning, refreshed := false, widgetCleared := false }
  | some f =>
    let req : Request :=
      ⟨"POST", apiBase ++ "/api/attendance/" ++ env.lessonId,
        bearer env.token, .multipartFile f⟩
    attendAfter f env.widgetPresent req (fetchThen env.fetch attendRespond)

/- ---------------------------------------------------------------------
handleRegisterFace (FaceRegistrationPage, second part of the
StudentLessonView.js source file).
--------------------------------------------------------------------- -/

/-- Inputs of one handleRegisterFace invocation. -/
structure RegisterEnv where
  selectedFile : Option String
  token : Option String
  fetch : FetchOutcome
  widgetPresent : Bool

/-- Observable outcome of one handleRegisterFace invocation; serverMessage
is an Option because the code stores null until a message is set. -/
structure RegisterOut where
  requests : List Request
  notifs : List Notification
  selectedFileAfter : Option String
  loadingAfter : Bool
  serverMessage : Option String
  serverMessageType : NotifLevel
  refreshed : Bool
  widgetCleared : Bool
deriving DecidableEq

/-- The catch-block of handleRegisterFace: notify shows the raw
error.message at error level (no fallback inside notify), while the Alert
text falls back to a generic message on an empty error.message. -/
def registerErrorOut (env : RegisterEnv) (reqs : List Request) (m : String) :
    RegisterOut :=
  { requests := reqs, notifs := [⟨"Error: " ++ m, .error⟩],
    selectedFileAfter := env.selectedFile, loadingAfter := false,
    serverMessage := some (errOr m "An unexpected error occurred."),
    serverMessageType := .error, refreshed := false, widgetCleared := false }

/-- What handleRegisterFace does with the response: response.json() runs
before the ok check; a non-ok status throws
`responseData.detail || HTTP error! status...`; success hands on the
optional message field of the body. -/
def registerRespond (r : HttpResponse) : Except String (Option String) :=
  match r.jsonBody with
  | none => .error jsonParseErrorMsg
  | some o =>
    if r.ok = false then
      .error (errOr (o.detail.getD "") (httpErrMsgLower r.status))
    else .ok o.message

/-- Success path and catch-block of handleRegisterFace: success uses
`responseData.message || default` for the Alert text and clears the
selected file and (when present) the picker widget. -/
def registerAfter (env : RegisterEnv) (req : Request)
    (res : Except String (Option String)) : RegisterOut :=
  match res with
  | .ok msgField =>
    { requests := [req],
      notifs := [⟨"Face registered successfully!", .success⟩],
      selectedFileAfter := none, loadingAfter := false,
      serverMessage :=
        some (errOr (msgField.getD "") "Face registered successfully!"),
      serverMessageType := .success, refreshed := false,
      widgetCleared := env.widgetPresent }
  | .error m => registerErrorOut env [req] m

/-- FaceRegistrationPage handleRegisterFace.  A missing file warns and
returns; a missing token throws before fetch (so the missing-credential
notification is error-level here, not warning-level). -/
def handleRegisterFace (env : RegisterEnv) : RegisterOut :=
  match env.selectedFile with
  | none =>
    { requests := [],
      notifs := [⟨"Please select an image file first.", .warning⟩],
      selectedFileAfter := none, loadingAfter := false,
      serverMessage := some "Please select an image file first.",
      serverMessageType := .warning, refreshed := false, widgetCleared := false }
  | some f =>
    match env.token with
    | none => registerErrorOut env [] "Authentication token not found."
    | some tok =>
      let req : Request :=
        ⟨"POST", apiBase ++ "/api/users/me/register-face",
          "Bearer " ++ tok, .multipartFile f⟩
      registerAfter env req (fetchThen env.fetch registerRespond)

/- ---------------------------------------------------------------------
Claims.
--------------------------------------------------------------------- -/

/-- C8: the required validator fails (returns its message) exactly on the
falsy values and passes (returns undefined) exactly on the truthy ones. -/
theorem C8_required_validator (msg : String) (v : JsVal) :
    (required msg v = some msg ↔ jsFalsy v) ∧
    (required msg v = none ↔ ¬ jsFalsy v) := by
  have hiff : required msg v = some msg ↔ jsFalsy v := by
    cases v with
    | vUndefined => simp [required, jsTruthy, jsFalsy]
    | vNull => simp [required, jsTruthy, jsFalsy]
    | vBool b => cases b <;> simp [required, jsTruthy, jsFalsy]
    | vNum q =>
      by_cases hq : q = 0 <;> simp [required, jsTruthy, jsFalsy, hq]
    | vStr s =>
      by_cases hs : s = "" <;> simp [required, jsTruthy, jsFalsy, hs]
    | vObj => simp [required, jsTruthy, jsFalsy]
  refine ⟨hiff, ?_⟩
  constructor
  · intro h hf
    have := hiff.mpr hf
    rw [this] at h
    exact Option.noConfusion h
  · intro hnf
    cases hv : required msg v with
    | none => rfl
    | some m =>
      have : m = msg := by
        have := hv
        unfold required at this
        by_cases ht : jsTruthy v
        · simp [ht] at this
        · simp [ht] at this
          exact this.symm
      subst this
      exact absurd (hiff.mp hv) hnf

/-- C8 witness: at concrete values, required fails on null with the given
message and passes on a nonempty string. -/
theorem C8_witness :
    required "Required" JsVal.vNull = some "Required" ∧
    required "Required" (JsVal.vStr "x") = none :=
  ⟨(C8_required_validator "Required" JsVal.vNull).1.mpr
      (Or.inr (Or.inl rfl)),
   (C8_required_validator "Required" (JsVal.vStr "x")).2.mpr
      (by simp [jsFalsy])⟩

/-- C7 as stated is false: with role student the router mounts four
custom routes (lesson list, lesson detail, a root alias of the list, and
the face-registration page), not two. -/
theorem C7_counterexample : ¬ (appRoutes (some "student")).length = 2 := by decide

/-- C7 amended: teacher mounts exactly the administrative resources and
no custom routes; student mounts no resources and exactly the four
student routes; any other resolution (including failure, i.e. none)
mounts only the fallback root route; the two sets are disjoint for every
resolved value. -/
theorem C7_role_router :
    (appResources (some "teacher") = teacherResources ∧
      appRoutes (some "teacher") = []) ∧
    (appResources (some "student") = [] ∧
      appRoutes (some "student") = studentRoutes ∧ studentRoutes.length = 4) ∧
    (∀ perms : Option String, perms ≠ some "teacher" → perms ≠ some "student" →
      appResources perms = [] ∧ appRoutes perms = fallbackRoutes) ∧
    (∀ perms : Option String, appResources perms = [] ∨ appRoutes perms = []) := by
  refine ⟨by decide, by decide, ?_, ?_⟩
  · intro perms h1 h2
    constructor
    · simp [appResources, h1]
    · simp [appRoutes, h1, h2]
  · intro perms
    by_cases hp : perms = some "teacher"
    · right
      rw [hp]
      decide
    · left
      simp [appResources, hp]

/-- C7 witness: an unknown role mounts nothing but the fallback route,
and the student set is disjoint from the teacher set at a concrete role. -/
theorem C7_role_router_witness :
    (appResources (some "admin") = [] ∧ appRoutes (some "admin") = fallbackRoutes) ∧
    (appResources (some "student") = [] ∨ appRoutes (some "student") = []) :=
  ⟨C7_role_router.2.2.1 (some "admin") (by decide) (by decide),
   C7_role_router.2.2.2 (some "student")⟩

/-- Once handleFileUpload has issued its request, every completion path
records exactly that one request. -/
theorem uploadAfter_requests (env : UploadEnv) (req : Request)
    (res : Except String Unit) : (uploadAfter env req res).requests = [req] := by
  cases res <;> rfl

/-- Once handleEnroll has issued its request, every completion path
records exactly that one request. -/
theorem enrollAfter_requests (env : EnrollEnv) (req : Request)
    (res : Except String Unit) : (enrollAfter env req res).requests = [req] := by
  cases res <;> rfl

/-- Once handleDelete has issued its request, every completion path
records exactly that one request. -/
theorem deleteAfter_requests (req : Request) (res : Except String Unit) :
    (deleteAfter req res).requests = [req] := by
  cases res <;> rfl

/-- Once the unenroll click has issued its request, every completion path
records exactly that one request. -/
theorem unenrollAfter_requests (req : Request) (res : Except String Unit) :
    (unenrollAfter req res).requests = [req] := by
  cases res <;> rfl

/-- Once handleMarkAttendance has issued its request, every completion
path records exactly that one request. -/
theorem attendAfter_requests (f : String) (wp : Bool) (req : Request)
    (res : Except String Rat) : (attendAfter f wp req res).requests = [req] := by
  cases res <;> rfl

/-- Once handleRegisterFace has issued its request, every completion path
records exactly that one request. -/
theorem registerAfter_requests (env : RegisterEnv) (req : Request)
    (res : Except String (Option String)) :
    (registerAfter env req res).requests = [req] := by
  cases res <;> rfl

/-- A mark-attendance invocation with a selected file but no stored
credential. -/
def C1_env : AttendEnv :=
  ⟨"7", some "face.png", none,
    .response ⟨true, 200, "x", some ⟨none, none, none⟩⟩, true⟩

/-- C1 as stated is false: handleMarkAttendance, invoked with a selected
file and no session credential in storage, still issues its network
request (so the no-request-plus-warning behaviour claimed for every
handler does not hold here). -/
theorem C1_counterexample : ¬ (handleMarkAttendance C1_env).requests = [] := by
  decide

/-- C1 amended: with the credential missing, the upload, enroll,
delete-file (confirmation accepted) and unenroll (lesson context present,
confirmation accepted) handlers issue no request and show the warning
mentioning authentication; handleRegisterFace issues no request but its
notification is error-level; handleMarkAttendance issues exactly one
request anyway, carrying the literal header "Bearer null". -/
theorem C1_amended :
    (∀ f fn rid fo wp,
      (handleFileUpload ⟨some f, fn, some rid, none, fo, wp⟩).requests = [] ∧
      (handleFileUpload ⟨some f, fn, some rid, none, fo, wp⟩).notifs =
        [⟨authWarnMsg, .warning⟩]) ∧
    (∀ sid rid fo, sid ≠ "" →
      (handleEnroll ⟨sid, some rid, none, fo⟩).requests = [] ∧
      (handleEnroll ⟨sid, some rid, none, fo⟩).notifs =
        [⟨authWarnMsg, .warning⟩]) ∧
    (∀ fid fo,
      (handleDelete ⟨true, fid, none, fo⟩).requests = [] ∧
      (handleDelete ⟨true, fid, none, fo⟩).notifs = [⟨authWarnMsg, .warning⟩]) ∧
    (∀ lid uid fo, lid ≠ 0 →
      (unenrollOnClick ⟨some lid, uid, true, none, fo⟩).requests = [] ∧
      (unenrollOnClick ⟨some lid, uid, true, none, fo⟩).notifs =
        [⟨authWarnMsg, .warning⟩]) ∧
    (∀ f fo wp,
      (handleRegisterFace ⟨some f, none, fo, wp⟩).requests = [] ∧
      (handleRegisterFace ⟨some f, none, fo, wp⟩).notifs =
        [⟨"Error: Authentication token not found.", .error⟩]) ∧
    (∀ lessonId f fo wp,
      (handleMarkAttendance ⟨lessonId, some f, none, fo, wp⟩).requests.length = 1 ∧
      ∀ req ∈ (handleMarkAttendance ⟨lessonId, some f, none, fo, wp⟩).requests,
        req.auth = "Bearer null") := by
  refine ⟨fun f fn rid fo wp => ⟨rfl, rfl⟩, ?_, fun fid fo => ⟨rfl, rfl⟩, ?_,
    fun f fo wp => ⟨rfl, rfl⟩, ?_⟩
  · intro sid rid fo h
    refine ⟨?_, ?_⟩ <;> (unfold handleEnroll; rw [if_neg h]) <;> rfl
  · intro lid uid fo h
    cases lid with
    | zero => exact absurd rfl h
    | succ n => exact ⟨rfl, rfl⟩
  · intro lessonId f fo wp
    have hreq : (handleMarkAttendance ⟨lessonId, some f, none, fo, wp⟩).requests =
        [⟨"POST", apiBase ++ "/api/attendance/" ++ lessonId, bearer none,
          .multipartFile f⟩] := attendAfter_requests f wp _ _
    refine ⟨by rw [hreq]; rfl, ?_⟩
    intro req hr
    rw [hreq] at hr
    simp at hr
    subst hr
    rfl

/-- C1 witness: concrete instances of the amended statement, with the
enroll, unenroll and attendance hypotheses discharged. -/
theorem C1_witness :
    (handleEnroll ⟨"5", some 2, none, .netError "x"⟩).notifs =
      [⟨authWarnMsg, .warning⟩] ∧
    (unenrollOnClick ⟨some 2, 9, true, none, .netError "x"⟩).requests = [] ∧
    (handleMarkAttendance ⟨"7", some "f.png", none, .netError "x", true⟩).requests.length = 1 :=
  ⟨(C1_amended.2.1 "5" 2 (.netError "x") (by decide)).2,
   (C1_amended.2.2.2.1 2 9 (.netError "x") (by decide)).1,
   (C1_amended.2.2.2.2.2 "7" "f.png" (.netError "x") true).1⟩

/-- An upload invocation with no file selected but the credential and
record present. -/
def C2_env : UploadEnv := ⟨none, "", some 1, some "tok", .netError "x", true⟩

/-- C2 as stated is false: handleFileUpload with no file selected issues
no request but also produces no notification at all (it returns
silently), so no warning-level notification is shown. -/
theorem C2_counterexample :
    ¬ ∃ n ∈ (handleFileUpload C2_env).notifs, n.level = NotifLevel.warning := by
  decide

/-- C2 amended: with the payload absent, handleFileUpload and
handleEnroll return silently (no request, no notification, unchanged
state: the Upload/Enroll buttons are disabled instead), while
handleMarkAttendance and handleRegisterFace issue no request and show a
warning-level notification. -/
theorem C2_amended :
    (∀ fn rec tok fo wp,
      handleFileUpload ⟨none, fn, rec, tok, fo, wp⟩ =
        uploadNoop ⟨none, fn, rec, tok, fo, wp⟩) ∧
    (∀ rec tok fo,
      handleEnroll ⟨"", rec, tok, fo⟩ = enrollNoop ⟨"", rec, tok, fo⟩) ∧
    (∀ lessonId tok fo wp,
      (handleMarkAttendance ⟨lessonId, none, tok, fo, wp⟩).requests = [] ∧
      (handleMarkAttendance ⟨lessonId, none, tok, fo, wp⟩).notifs =
        [⟨"Please select a file to simulate camera capture.", .warning⟩]) ∧
    (∀ tok fo wp,
      (handleRegisterFace ⟨none, tok, fo, wp⟩).requests = [] ∧
      (handleRegisterFace ⟨none, tok, fo, wp⟩).notifs =
        [⟨"Please select an image file first.", .warning⟩]) :=
  ⟨fun fn rec tok fo wp => rfl, fun rec tok fo => rfl,
   fun lessonId tok fo wp => ⟨rfl, rfl⟩, fun tok fo wp => ⟨rfl, rfl⟩⟩

/-- A string with a positive-length left part is itself of positive length. -/
theorem length_append_pos_left (a b : String) (h : 0 < a.length) :
    0 < (a ++ b).length := by
  rw [String.length_append]
  omega

/-- A string of positive length is not the empty string. -/
theorem ne_empty_of_length_pos (s : String) (h : 0 < s.length) : s ≠ "" := by
  intro he
  rw [he] at h
  simp at h

/-- A delete-file invocation hitting a 400 response with one unparseable
body text. -/
def C3_envA : DeleteEnv := ⟨true, 3, some "tok", .response ⟨false, 400, "AAA", none⟩⟩

/-- The same delete-file invocation with a different unparseable body. -/
def C3_envB : DeleteEnv := ⟨true, 3, some "tok", .response ⟨false, 400, "BBB", none⟩⟩

/-- C3 as stated is false: on a non-2xx response whose body is not
parseable JSON, handleDelete does not fall back to a fixed generic
message — its notification embeds the raw body text, so two invocations
differing only in the unparseable body yield different notifications. -/
theorem C3_counterexample :
    (handleDelete C3_envA).notifs ≠ (handleDelete C3_envB).notifs := by decide

/-- C3 amended: on a non-2xx response, handleFileUpload, handleEnroll and
the unenroll click show the parsed detail string when present and
non-empty and fall back to their fixed generic messages on an unparseable
body; handleDelete instead embeds the status and the raw body text in its
message (no JSON parsing, so the text varies with the body);
handleMarkAttendance and handleRegisterFace show the detail when present,
surface the JSON parse error message on an unparseable body, and fall
back to a status-dependent HTTP error message when the detail is absent.
No path throws out of the handler. -/
theorem C3_amended :
    (∀ f fn rid tok wp st raw o d, o.detail = some d → d ≠ "" →
      (handleFileUpload ⟨some f, fn, some rid, some tok,
        .response ⟨false, st, raw, some o⟩, wp⟩).notifs =
        [⟨"Error: " ++ d, .warning⟩]) ∧
    (∀ f fn rid tok wp st raw,
      (handleFileUpload ⟨some f, fn, some rid, some tok,
        .response ⟨false, st, raw, none⟩, wp⟩).notifs =
        [⟨"Error: File upload failed", .warning⟩]) ∧
    (∀ sid rid tok st raw o d, sid ≠ "" → o.detail = some d → d ≠ "" →
      (handleEnroll ⟨sid, some rid, some tok,
        .response ⟨false, st, raw, some o⟩⟩).notifs =
        [⟨"Error: " ++ d, .warning⟩]) ∧
    (∀ sid rid tok st raw, sid ≠ "" →
      (handleEnroll ⟨sid, some rid, some tok,
        .response ⟨false, st, raw, none⟩⟩).notifs =
        [⟨"Error: Enrollment failed", .warning⟩]) ∧
    (∀ lid uid tok st raw o d, lid ≠ 0 → o.detail = some d → d ≠ "" →
      (unenrollOnClick ⟨some lid, uid, true, some tok,
        .response ⟨false, st, raw, some o⟩⟩).notifs =
        [⟨"Error: " ++ d, .warning⟩]) ∧
    (∀ lid uid tok st raw, lid ≠ 0 →
      (unenrollOnClick ⟨some lid, uid, true, some tok,
        .response ⟨false, st, raw, none⟩⟩).notifs =
        [⟨"Error: Unenrollment failed", .warning⟩]) ∧
    (∀ fid tok st raw body,
      (handleDelete ⟨true, fid, some tok,
        .response ⟨false, st, raw, body⟩⟩).notifs =
        [⟨"Error: " ++ ("Failed to delete file. Status: " ++ toString st
          ++ ", Message: " ++ raw), .warning⟩]) ∧
    (∀ lessonId f tok wp st raw o d, o.detail = some d → d ≠ "" →
      (handleMarkAttendance ⟨lessonId, some f, tok,
        .response ⟨false, st, raw, some o⟩, wp⟩).notifs =
        [⟨"Attendance Error: " ++ d, .error⟩]) ∧
    (∀ lessonId f tok wp st raw,
      (handleMarkAttendance ⟨lessonId, some f, tok,
        .response ⟨false, st, raw, none⟩, wp⟩).notifs =
        [⟨"Attendance Error: " ++ jsonParseErrorMsg, .error⟩]) ∧
    (∀ lessonId f tok wp st raw msgF sim,
      (handleMarkAttendance ⟨lessonId, some f, tok,
        .response ⟨false, st, raw, some ⟨none, msgF, sim⟩⟩, wp⟩).notifs =
        [⟨"Attendance Error: " ++ httpErrMsg st, .error⟩]) ∧
    (∀ f tok wp st raw o d, o.detail = some d → d ≠ "" →
      (handleRegisterFace ⟨some f, some tok,
        .response ⟨false, st, raw, some o⟩, wp⟩).notifs =
        [⟨"Error: " ++ d, .error⟩]) ∧
    (∀ f tok wp st raw,
      (handleRegisterFace ⟨some f, some tok,
        .response ⟨false, st, raw, none⟩, wp⟩).notifs =
        [⟨"Error: " ++ jsonParseErrorMsg, .error⟩]) := by
  refine ⟨?_, ?_, ?_, ?_, ?_, ?_, ?_, ?_, ?_, ?_, ?_, ?_⟩
  · intro f fn rid tok wp st raw o d hd hne
    simp [handleFileUpload, uploadAfter, fetchThen, uploadRespond,
      jsonDetailOr, hd, errOr, hne]
  · intro f fn rid tok wp st raw
    simp [handleFileUpload, uploadAfter, fetchThen, uploadRespond,
      jsonDetailOr, errOr]
  · intro sid rid tok st raw o d hs hd hne
    unfold handleEnroll
    rw [if_neg hs]
    simp [enrollAfter, fetchThen, enrollRespond, jsonDetailOr, hd, errOr, hne]
  · intro sid rid tok st raw hs
    unfold handleEnroll
    rw [if_neg hs]
    simp [enrollAfter, fetchThen, enrollRespond, jsonDetailOr, errOr]
  · intro lid uid tok st raw o d hl hd hne
    cases lid with
    | zero => exact absurd rfl hl
    | succ n =>
      simp [unenrollOnClick, unenrollAfter, fetchThen, unenrollRespond,
        jsonDetailOr, hd, errOr, hne]
  · intro lid uid tok st raw hl
    cases lid with
    | zero => exact absurd rfl hl
    | succ n =>
      simp [unenrollOnClick, unenrollAfter, fetchThen, unenrollRespond,
        jsonDetailOr, errOr]
  · intro fid tok st raw body
    simp [handleDelete, deleteAfter, fetchThen, deleteRespond, errOr]
    rw [if_neg (ne_empty_of_length_pos _ (length_append_pos_left _ _
      (length_append_pos_left _ _ (length_append_pos_left _ _ (by decide)))))]
  · intro lessonId f tok wp st raw o d hd hne
    simp [handleMarkAttendance, attendAfter, fetchThen, attendRespond,
      hd, errOr, hne]
  · intro lessonId f tok wp st raw
    simp [handleMarkAttendance, attendAfter, fetchThen, attendRespond,
      errOr, jsonParseErrorMsg]
  · intro lessonId f tok wp st raw msgF sim
    simp [handleMarkAttendance, attendAfter, fetchThen, attendRespond,
      errOr, httpErrMsg]
    rw [if_neg (ne_empty_of_length_pos _ (length_append_pos_left _ _ (by decide)))]
  · intro f tok wp st raw o d hd hne
    simp [handleRegisterFace, registerAfter, registerErrorOut, fetchThen,
      registerRespond, hd, errOr, hne]
  · intro f tok wp st raw
    simp [handleRegisterFace, registerAfter, registerErrorOut, fetchThen,
      registerRespond, errOr, jsonParseErrorMsg]

/-- C3 witness: concrete instances of the amended statement with all
hypotheses discharged. -/
theorem C3_witness :
    (handleFileUpload ⟨some "a.txt", "a.txt", some 5, some "tok",
      .response ⟨false, 400, "raw", some ⟨some "bad input", none, none⟩⟩, true⟩).notifs =
      [⟨"Error: bad input", .warning⟩] ∧
    (handleEnroll ⟨"5", some 2, some "tok",
      .response ⟨false, 422, "zzz", none⟩⟩).notifs =
      [⟨"Error: Enrollment failed", .warning⟩] ∧
    (handleMarkAttendance ⟨"7", some "f.png", some "tok",
      .response ⟨false, 404, "zzz", some ⟨none, none, none⟩⟩, true⟩).notifs =
      [⟨"Attendance Error: " ++ httpErrMsg 404, .error⟩] :=
  ⟨C3_amended.1 "a.txt" "a.txt" 5 "tok" true 400 "raw"
      ⟨some "bad input", none, none⟩ "bad input" rfl (by decide),
   C3_amended.2.2.2.1 "5" 2 "tok" 422 "zzz" (by decide),
   C3_amended.2.2.2.2.2.2.2.2.2.1 "7" "f.png" (some "tok") true 404 "zzz"
      none none⟩

/-- A mark-attendance invocation whose 2xx response carries a numeric
similarity, i.e. a fully successful run. -/
def C4_env : AttendEnv :=
  ⟨"7", some "face.png", some "tok",
    .response ⟨true, 200, "x", some ⟨none, none, some (.jNum 1)⟩⟩, true⟩

/-- C4 as stated is false: even on a fully successful 2xx response,
handleMarkAttendance never triggers a refresh of any dependent list view
(the component has no refresh collaborator at all). -/
theorem C4_counterexample : ¬ (handleMarkAttendance C4_env).refreshed = true := by
  decide

/-- C4 amended: on a 2xx response, handleFileUpload, handleEnroll,
handleDelete and the unenroll click emit their success notification and
refresh the list, and upload/enroll clear their transient input (upload
also resets the picker widget when present); handleMarkAttendance and
handleRegisterFace emit the success notification and clear the file and
the widget but trigger no refresh, and handleMarkAttendance reaches its
success path only when the body parses with a numeric similarity — on a
2xx body without one the error path runs and the input is kept. -/
theorem C4_amended :
    (∀ f fn rid tok wp st raw jb,
      (handleFileUpload ⟨some f, fn, some rid, some tok,
          .response ⟨true, st, raw, jb⟩, wp⟩).notifs =
        [⟨"File uploaded successfully", .info⟩] ∧
      (handleFileUpload ⟨some f, fn, some rid, some tok,
          .response ⟨true, st, raw, jb⟩, wp⟩).refreshed = true ∧
      (handleFileUpload ⟨some f, fn, some rid, some tok,
          .response ⟨true, st, raw, jb⟩, wp⟩).fileAfter = none ∧
      (handleFileUpload ⟨some f, fn, some rid, some tok,
          .response ⟨true, st, raw, jb⟩, wp⟩).fileNameAfter = "" ∧
      (handleFileUpload ⟨some f, fn, some rid, some tok,
          .response ⟨true, st, raw, jb⟩, wp⟩).widgetCleared = wp) ∧
    (∀ sid rid tok st raw jb, sid ≠ "" →
      (handleEnroll ⟨sid, some rid, some tok,
          .response ⟨true, st, raw, jb⟩⟩).notifs =
        [⟨"Student enrolled successfully", .info⟩] ∧
      (handleEnroll ⟨sid, some rid, some tok,
          .response ⟨true, st, raw, jb⟩⟩).refreshed = true ∧
      (handleEnroll ⟨sid, some rid, some tok,
          .response ⟨true, st, raw, jb⟩⟩).studentIdAfter = "") ∧
    (∀ fid tok st raw jb,
      (handleDelete ⟨true, fid, some tok,
          .response ⟨true, st, raw, jb⟩⟩).notifs =
        [⟨"File deleted successfully", .info⟩] ∧
      (handleDelete ⟨true, fid, some tok,
          .response ⟨true, st, raw, jb⟩⟩).refreshed = true) ∧
    (∀ lid uid tok st raw jb, lid ≠ 0 →
      (unenrollOnClick ⟨some lid, uid, true, some tok,
          .response ⟨true, st, raw, jb⟩⟩).notifs =
        [⟨"Student unenrolled successfully", .info⟩] ∧
      (unenrollOnClick ⟨some lid, uid, true, some tok,
          .response ⟨true, st, raw, jb⟩⟩).refreshed = true) ∧
    (∀ lessonId f tok wp st raw det msgF q,
      (handleMarkAttendance ⟨lessonId, some f, tok,
          .response ⟨true, st, raw, some ⟨det, msgF, some (.jNum q)⟩⟩, wp⟩).notifs =
        [⟨"Attendance confirmed! Similarity: " ++ toFixed4 q, .success⟩] ∧
      (handleMarkAttendance ⟨lessonId, some f, tok,
          .response ⟨true, st, raw, some ⟨det, msgF, some (.jNum q)⟩⟩, wp⟩).selectedFileAfter = none ∧
      (handleMarkAttendance ⟨lessonId, some f, tok,
          .response ⟨true, st, raw, some ⟨det, msgF, some (.jNum q)⟩⟩, wp⟩).widgetCleared = wp ∧
      (handleMarkAttendance ⟨lessonId, some f, tok,
          .response ⟨true, st, raw, some ⟨det, msgF, some (.jNum q)⟩⟩, wp⟩).refreshed = false) ∧
    (∀ lessonId f tok wp st raw det msgF,
      (handleMarkAttendance ⟨lessonId, some f, tok,
          .response ⟨true, st, raw, some ⟨det, msgF, none⟩⟩, wp⟩).serverMessageType =
        NotifLevel.error ∧
      (handleMarkAttendance ⟨lessonId, some f, tok,
          .response ⟨true, st, raw, some ⟨det, msgF, none⟩⟩, wp⟩).selectedFileAfter =
        some f) ∧
    (∀ f tok wp st raw det msgF sim,
      (handleRegisterFace ⟨some f, some tok,
          .response ⟨true, st, raw, some ⟨det, msgF, sim⟩⟩, wp⟩).notifs =
        [⟨"Face registered successfully!", .success⟩] ∧
      (handleRegisterFace ⟨some f, some tok,
          .response ⟨true, st, raw, some ⟨det, msgF, sim⟩⟩, wp⟩).serverMessage =
        some (errOr (msgF.getD "") "Face registered successfully!") ∧
      (handleRegisterFace ⟨some f, some tok,
          .response ⟨true, st, raw, some ⟨det, msgF, sim⟩⟩, wp⟩).selectedFileAfter = none ∧
      (handleRegisterFace ⟨some f, some tok,
          .response ⟨true, st, raw, some ⟨det, msgF, sim⟩⟩, wp⟩).widgetCleared = wp ∧
      (handleRegisterFace ⟨some f, some tok,
          .response ⟨true, st, raw, some ⟨det, msgF, sim⟩⟩, wp⟩).refreshed = false) := by
  refine ⟨fun f fn rid tok wp st raw jb => ⟨rfl, rfl, rfl, rfl, rfl⟩, ?_, 
    fun fid tok st raw jb => ⟨rfl, rfl⟩, ?_,
    fun lessonId f tok wp st raw det msgF q => ⟨rfl, rfl, rfl, rfl⟩,
    fun lessonId f tok wp st raw det msgF => ⟨rfl, rfl⟩,
    fun f tok wp st raw det msgF sim => ⟨rfl, rfl, rfl, rfl, rfl⟩⟩
  · intro sid rid tok st raw jb hs
    refine ⟨?_, ?_, ?_⟩ <;> (unfold handleEnroll; rw [if_neg hs]) <;> rfl
  · intro lid uid tok st raw jb hl
    cases lid with
    | zero => exact absurd rfl hl
    | succ n => exact ⟨rfl, rfl⟩

/-- C4 witness: concrete successful runs, with the enroll and unenroll
hypotheses discharged. -/
theorem C4_witness :
    (handleEnroll ⟨"5", some 2, some "tok",
      .response ⟨true, 200, "", none⟩⟩).studentIdAfter = "" ∧
    (unenrollOnClick ⟨some 2, 9, true, some "tok",
      .response ⟨true, 200, "", none⟩⟩).refreshed = true :=
  ⟨(C4_amended.2.1 "5" 2 "tok" 200 "" none (by decide)).2.2,
   (C4_amended.2.2.2.1 2 9 "tok" 200 "" none (by decide)).2⟩

/-- C5: on every failure (network exception or non-2xx response) the
transient local input of each handler is left unchanged — handleFileUpload
keeps the file and its name, handleEnroll keeps the selected identifier,
handleMarkAttendance and handleRegisterFace keep the selected file, so
the user can retry manually.  (handleDelete and the unenroll click hold
no transient input.) -/
theorem C5_failure_preserves_input :
    (∀ env : UploadEnv, ∀ m, env.fetch = .netError m →
      (handleFileUpload env).fileAfter = env.file ∧
      (handleFileUpload env).fileNameAfter = env.fileName) ∧
    (∀ env : UploadEnv, ∀ r, env.fetch = .response r → r.ok = false →
      (handleFileUpload env).fileAfter = env.file ∧
      (handleFileUpload env).fileNameAfter = env.fileName) ∧
    (∀ env : EnrollEnv, ∀ m, env.fetch = .netError m →
      (handleEnroll env).studentIdAfter = env.studentId) ∧
    (∀ env : EnrollEnv, ∀ r, env.fetch = .response r → r.ok = false →
      (handleEnroll env).studentIdAfter = env.studentId) ∧
    (∀ env : AttendEnv, ∀ m, env.fetch = .netError m →
      (handleMarkAttendance env).selectedFileAfter = env.selectedFile) ∧
    (∀ env : AttendEnv, ∀ r, env.fetch = .response r → r.ok = false →
      (handleMarkAttendance env).selectedFileAfter = env.selectedFile) ∧
    (∀ env : RegisterEnv, ∀ m, env.fetch = .netError m →
      (handleRegisterFace env).selectedFileAfter = env.selectedFile) ∧
    (∀ env : RegisterEnv, ∀ r, env.fetch = .response r → r.ok = false →
      (handleRegisterFace env).selectedFileAfter = env.selectedFile) := by
  refine ⟨?_, ?_, ?_, ?_, ?_, ?_, ?_, ?_⟩
  · rintro ⟨file, fn, rec, tok, fetch, wp⟩ m hm
    subst hm
    cases file <;> cases rec <;> cases tok <;>
      simp [handleFileUpload, uploadNoop, uploadAfter, fetchThen, uploadRespond]
  · rintro ⟨file, fn, rec, tok, fetch, wp⟩ r hr hok
    subst hr
    rcases r with ⟨ok, st, raw, jb⟩
    simp at hok
    subst hok
    cases file <;> cases rec <;> cases tok <;>
      simp [handleFileUpload, uploadNoop, uploadAfter, fetchThen, uploadRespond]
  · rintro ⟨sid, rec, tok, fetch⟩ m hm
    subst hm
    by_cases hs : sid = "" <;> cases rec <;> cases tok <;>
      simp [handleEnroll, enrollNoop, enrollAfter, fetchThen, enrollRespond, hs]
  · rintro ⟨sid, rec, tok, fetch⟩ r hr hok
    subst hr
    rcases r with ⟨ok, st, raw, jb⟩
    simp at hok
    subst hok
    by_cases hs : sid = "" <;> cases rec <;> cases tok <;>
      simp [handleEnroll, enrollNoop, enrollAfter, fetchThen, enrollRespond, hs]
  · rintro ⟨lid, sf, tok, fetch, wp⟩ m hm
    subst hm
    cases sf <;>
      simp [handleMarkAttendance, attendAfter, fetchThen, attendRespond]
  · rintro ⟨lid, sf, tok, fetch, wp⟩ r hr hok
    subst hr
    rcases r with ⟨ok, st, raw, jb⟩
    simp at hok
    subst hok
    cases sf <;> cases jb <;>
      simp [handleMarkAttendance, attendAfter, fetchThen, attendRespond]
  · rintro ⟨sf, tok, fetch, wp⟩ m hm
    subst hm
    cases sf <;> cases tok <;>
      simp [handleRegisterFace, registerAfter, registerErrorOut, fetchThen,
        registerRespond]
  · rintro ⟨sf, tok, fetch, wp⟩ r hr hok
    subst hr
    rcases r with ⟨ok, st, raw, jb⟩
    simp at hok
    subst hok
    cases sf <;> cases tok <;> cases jb <;>
      simp [handleRegisterFace, registerAfter, registerErrorOut, fetchThen,
        registerRespond]

/-- C5 witness: a network error and a 404 at concrete inputs leave the
selected file / identifier in place. -/
theorem C5_witness :
    (handleFileUpload ⟨some "a.txt", "a.txt", some 5, some "tok",
      .netError "net down", true⟩).fileAfter = some "a.txt" ∧
    (handleMarkAttendance ⟨"7", some "f.png", some "tok",
      .response ⟨false, 404, "x", none⟩, true⟩).selectedFileAfter = some "f.png" :=
  ⟨(C5_failure_preserves_input.1
      ⟨some "a.txt", "a.txt", some 5, some "tok", .netError "net down", true⟩
      "net down" rfl).1,
   C5_failure_preserves_input.2.2.2.2.2.1
      ⟨"7", some "f.png", some "tok", .response ⟨false, 404, "x", none⟩, true⟩
      ⟨false, 404, "x", none⟩ rfl rfl⟩

/-- A delete-file invocation with the credential present but the
confirmation prompt declined. -/
def C6_env : DeleteEnv := ⟨false, 3, some "tok", .response ⟨true, 200, "", none⟩⟩

/-- C6 as stated is false: handleDelete invoked with payload and
credential present issues zero requests, not exactly one, when the user
declines the confirmation prompt. -/
theorem C6_counterexample : ¬ (handleDelete C6_env).requests.length = 1 := by
  decide

/-- C6 amended: every invocation of every handler issues at most one
network request (hence no handler ever retries), and exactly one request
is issued when the payload, context and credential are present and — for
the destructive handlers — the confirmation prompt is accepted;
handleMarkAttendance issues its single request whenever a file is
selected, credential or not. -/
theorem C6_at_most_one_request :
    (∀ env : UploadEnv, (handleFileUpload env).requests.length ≤ 1) ∧
    (∀ env : EnrollEnv, (handleEnroll env).requests.length ≤ 1) ∧
    (∀ env : DeleteEnv, (handleDelete env).requests.length ≤ 1) ∧
    (∀ env : UnenrollEnv, (unenrollOnClick env).requests.length ≤ 1) ∧
    (∀ env : AttendEnv, (handleMarkAttendance env).requests.length ≤ 1) ∧
    (∀ env : RegisterEnv, (handleRegisterFace env).requests.length ≤ 1) ∧
    (∀ f fn rid tok fo wp,
      (handleFileUpload ⟨some f, fn, some rid, some tok, fo, wp⟩).requests.length = 1) ∧
    (∀ sid rid tok fo, sid ≠ "" →
      (handleEnroll ⟨sid, some rid, some tok, fo⟩).requests.length = 1) ∧
    (∀ fid tok fo,
      (handleDelete ⟨true, fid, some tok, fo⟩).requests.length = 1) ∧
    (∀ lid uid tok fo, lid ≠ 0 →
      (unenrollOnClick ⟨some lid, uid, true, some tok, fo⟩).requests.length = 1) ∧
    (∀ lessonId f tok fo wp,
      (handleMarkAttendance ⟨lessonId, some f, tok, fo, wp⟩).requests.length = 1) ∧
    (∀ f tok fo wp,
      (handleRegisterFace ⟨some f, some tok, fo, wp⟩).requests.length = 1) := by
  refine ⟨?_, ?_, ?_, ?_, ?_, ?_, ?_, ?_, ?_, ?_, ?_, ?_⟩
  · rintro ⟨file, fn, rec, tok, fetch, wp⟩
    cases file <;> cases rec <;> cases tok <;>
      simp [handleFileUpload, uploadNoop, uploadAfter_requests]
  · rintro ⟨sid, rec, tok, fetch⟩
    by_cases hs : sid = "" <;> cases rec <;> cases tok <;>
      simp [handleEnroll, enrollNoop, enrollAfter_requests, hs]
  · rintro ⟨conf, fid, tok, fetch⟩
    cases conf <;> cases tok <;>
      simp [handleDelete, deleteAfter_requests]
  · rintro ⟨cl, uid, conf, tok, fetch⟩
    rcases cl with _ | lid
    · simp [unenrollOnClick]
    · cases lid <;> cases conf <;> cases tok <;>
        simp [unenrollOnClick, unenrollAfter_requests]
  · rintro ⟨lid, sf, tok, fetch, wp⟩
    cases sf <;>
      simp [handleMarkAttendance, attendAfter_requests]
  · rintro ⟨sf, tok, fetch, wp⟩
    cases sf <;> cases tok <;>
      simp [handleRegisterFace, registerErrorOut, registerAfter_requests]
  · intro f fn rid tok fo wp
    simp [handleFileUpload, uploadAfter_requests]
  · intro sid rid tok fo hs
    unfold handleEnroll
    rw [if_neg hs]
    simp [enrollAfter_requests]
  · intro fid tok fo
    simp [handleDelete, deleteAfter_requests]
  · intro lid uid tok fo hl
    cases lid with
    | zero => exact absurd rfl hl
    | succ n => simp [unenrollOnClick, unenrollAfter_requests]
  · intro lessonId f tok fo wp
    simp [handleMarkAttendance, attendAfter_requests]
  · intro f tok fo wp
    simp [handleRegisterFace, registerAfter_requests]

/-- C6 witness: with all preconditions present, concrete invocations
issue exactly one request, with the enroll hypothesis discharged. -/
theorem C6_witness :
    (handleEnroll ⟨"5", some 2, some "tok", .netError "x"⟩).requests.length = 1 ∧
    (handleDelete ⟨true, 3, some "tok", .netError "x"⟩).requests.length ≤ 1 :=
  ⟨C6_at_most_one_request.2.2.2.2.2.2.2.1 "5" 2 "tok" (.netError "x") (by decide),
   C6_at_most_one_request.2.2.1 ⟨true, 3, some "tok", .netError "x"⟩⟩

/-- C9: for both destructive handlers a request is issued only if the
confirmation prompt was accepted, and when the prompt was shown and
declined nothing at all happens: no request, no notification, no refresh. -/
theorem C9_confirmation_gates_request :
    (∀ env : DeleteEnv, (handleDelete env).requests ≠ [] → env.confirmed = true) ∧
    (∀ env : DeleteEnv, env.confirmed = false →
      (handleDelete env).requests = [] ∧ (handleDelete env).notifs = [] ∧
      (handleDelete env).refreshed = false) ∧
    (∀ env : UnenrollEnv, (unenrollOnClick env).requests ≠ [] → env.confirmed = true) ∧
    (∀ env : UnenrollEnv, (unenrollOnClick env).prompted = true →
      env.confirmed = false →
      (unenrollOnClick env).requests = [] ∧ (unenrollOnClick env).notifs = [] ∧
      (unenrollOnClick env).refreshed = false) := by
  refine ⟨?_, ?_, ?_, ?_⟩
  · rintro ⟨conf, fid, tok, fetch⟩ h
    cases conf with
    | true => rfl
    | false => exact absurd rfl h
  · rintro ⟨conf, fid, tok, fetch⟩ h
    subst h
    exact ⟨rfl, rfl, rfl⟩
  · rintro ⟨cl, uid, conf, tok, fetch⟩ h
    cases conf with
    | true => rfl
    | false =>
      rcases cl with _ | lid
      · exact absurd rfl h
      · rcases Nat.eq_zero_or_pos lid with h0 | h0
        · subst h0
          exact absurd rfl h
        · exfalso
          apply h
          cases lid with
          | zero => exact absurd rfl (Nat.pos_iff_ne_zero.mp h0)
          | succ n => rfl
  · rintro ⟨cl, uid, conf, tok, fetch⟩ hp hc
    subst hc
    rcases cl with _ | lid
    · exact absurd hp (by simp [unenrollOnClick])
    · cases lid with
      | zero => exact absurd hp (by simp [unenrollOnClick])
      | succ n => exact ⟨rfl, rfl, rfl⟩

/-- C9 witness: at a concrete declined prompt nothing happens, and a
concrete issued request implies the prompt was accepted. -/
theorem C9_witness :
    ((handleDelete ⟨false, 3, some "tok", .netError "x"⟩).requests = [] ∧
      (handleDelete ⟨false, 3, some "tok", .netError "x"⟩).notifs = [] ∧
      (handleDelete ⟨false, 3, some "tok", .netError "x"⟩).refreshed = false) ∧
    ((unenrollOnClick ⟨some 2, 9, false, some "tok", .netError "x"⟩).requests = [] ∧
      (unenrollOnClick ⟨some 2, 9, false, some "tok", .netError "x"⟩).notifs = [] ∧
      (unenrollOnClick ⟨some 2, 9, false, some "tok", .netError "x"⟩).refreshed = false) :=
  ⟨C9_confirmation_gates_request.2.1 ⟨false, 3, some "tok", .netError "x"⟩ rfl,
   C9_confirmation_gates_request.2.2.2 ⟨some 2, 9, false, some "tok", .netError "x"⟩
     (by decide) rfl⟩

/-- Every completion path of handleMarkAttendance leaves the loading flag
cleared (the source's finally block). -/
theorem attendAfter_loading (f : String) (wp : Bool) (req : Request)
    (res : Except String Rat) : (attendAfter f wp req res).loadingAfter = false := by
  cases res <;> rfl

/-- C10: handleMarkAttendance reports success exactly when the 2xx body
parses as JSON with a numeric similarity field, and the success message
carries that value formatted to four decimal places; a 2xx response with
an unparseable body or a non-numeric (or absent) similarity runs the
error path instead; and the loading flag ends false on every outcome. -/
theorem C10_attendance_similarity :
    (∀ lessonId f tok wp st raw det msgF q,
      (handleMarkAttendance ⟨lessonId, some f, tok,
          .response ⟨true, st, raw, some ⟨det, msgF, some (.jNum q)⟩⟩, wp⟩).notifs =
        [⟨"Attendance confirmed! Similarity: " ++ toFixed4 q, .success⟩] ∧
      (handleMarkAttendance ⟨lessonId, some f, tok,
          .response ⟨true, st, raw, some ⟨det, msgF, some (.jNum q)⟩⟩, wp⟩).serverMessageType =
        NotifLevel.success) ∧
    (∀ lessonId f tok wp st raw,
      (handleMarkAttendance ⟨lessonId, some f, tok,
          .response ⟨true, st, raw, none⟩, wp⟩).serverMessageType =
        NotifLevel.error ∧
      ∀ n ∈ (handleMarkAttendance ⟨lessonId, some f, tok,
          .response ⟨true, st, raw, none⟩, wp⟩).notifs, n.level = NotifLevel.error) ∧
    (∀ lessonId f tok wp st raw det msgF sim, (∀ q, sim ≠ some (.jNum q)) →
      (handleMarkAttendance ⟨lessonId, some f, tok,
          .response ⟨true, st, raw, some ⟨det, msgF, sim⟩⟩, wp⟩).serverMessageType =
        NotifLevel.error ∧
      ∀ n ∈ (handleMarkAttendance ⟨lessonId, some f, tok,
          .response ⟨true, st, raw, some ⟨det, msgF, sim⟩⟩, wp⟩).notifs,
        n.level = NotifLevel.error) ∧
    (∀ env : AttendEnv, (handleMarkAttendance env).loadingAfter = false) := by
  refine ⟨fun lessonId f tok wp st raw det msgF q => ⟨rfl, rfl⟩, ?_, ?_, ?_⟩
  · intro lessonId f tok wp st raw
    refine ⟨rfl, ?_⟩
    intro n hn
    simp [handleMarkAttendance, attendAfter, fetchThen, attendRespond] at hn
    rw [hn]
  · intro lessonId f tok wp st raw det msgF sim hsim
    rcases sim with _ | v
    · refine ⟨rfl, ?_⟩
      intro n hn
      simp [handleMarkAttendance, attendAfter, fetchThen, attendRespond] at hn
      rw [hn]
    · cases v with
      | jNum q => exact absurd rfl (hsim q)
      | jStr s =>
        refine ⟨rfl, ?_⟩
        intro n hn
        simp [handleMarkAttendance, attendAfter, fetchThen, attendRespond] at hn
        rw [hn]
      | jBool b =>
        refine ⟨rfl, ?_⟩
        intro n hn
        simp [handleMarkAttendance, attendAfter, fetchThen, attendRespond] at hn
        rw [hn]
      | jNull =>
        refine ⟨rfl, ?_⟩
        intro n hn
        simp [handleMarkAttendance, attendAfter, fetchThen, attendRespond] at hn
        rw [hn]
  · rintro ⟨lid, sf, tok, fetch, wp⟩
    cases sf with
    | none => rfl
    | some f => exact attendAfter_loading f wp _ _

/-- C10 witness: a 2xx body whose similarity is the string "0.9" (not a
number) runs the error path, and a concrete full run ends with the
loading flag false. -/
theorem C10_witness :
    (handleMarkAttendance ⟨"12", some "pic.png", some "tk",
      .response ⟨true, 200, "x", some ⟨none, none, some (.jStr "0.9")⟩⟩,
      false⟩).serverMessageType = NotifLevel.error ∧
    (handleMarkAttendance ⟨"12", some "pic.png", some "tk",
      .netError "down", false⟩).loadingAfter = false :=
  ⟨(C10_attendance_similarity.2.2.1 "12" "pic.png" (some "tk") false 200 "x"
      none none (some (.jStr "0.9")) (fun q h => by simp at h)).1,
   C10_attendance_similarity.2.2.2
      ⟨"12", some "pic.png", some "tk", .netError "down", false⟩⟩
